import Mathlib

/-!
Shallow embedding of the Termux-Ultra `rust-core` agent-dispatch library
(`src/rust-core/src/lib.rs`) and verification of its specification.

Modelling conventions:
* `String`, `Vec<String>`, `HashMap<String,String>` become `String`,
  `List String`, association lists `List (String × String)`.
* `serde_json` values become the `Json` inductive below; the schema-level
  (de)serialization derived from the `AgentTask` / `AgentResult` struct
  declarations is implemented concretely, while the text-level JSON
  tokenizer (library code external to the repository) is a parameter
  `p : String → Except String Json` of the boundary functions.
* Effects of the outside world (the Python interpreter run, the spawned
  subprocess, wall-clock timing, generated UUIDs, UTF-8 validation of a
  C string) are passed in as explicit parameters, so each backend's
  `execute` is a pure function of the task and of the recorded outcome.
* The global registry `AGENT_REGISTRY` is a `HashMap<String, Box<dyn Agent>>`;
  its iteration sequence (which Rust leaves unspecified) is modelled as a
  `List (String × Agent)`, and dispatch theorems quantify over that list.
* A Rust panic (e.g. `.unwrap()` on a poisoned mutex) is modelled as `none`
  in an `Option`-valued boundary function: no result record is returned.
-/

namespace Bifrost

/-- JSON values as produced/consumed by serde_json at the boundary. -/
inductive Json where
  | null : Json
  | bool (b : Bool) : Json
  | num (n : Nat) : Json
  | str (s : String) : Json
  | arr (elems : List Json) : Json
  | obj (fields : List (String × Json)) : Json

/-- `struct AgentTask` (lib.rs lines 13-19): the task descriptor crossing the
boundary. The `environment` HashMap is modelled as an association list. -/
structure AgentTask where
  id : String
  agent_type : String
  command : String
  args : List String
  environment : List (String × String)
deriving Repr, DecidableEq

/-- `struct AgentResult` (lib.rs lines 22-28): the result record. -/
structure AgentResult where
  task_id : String
  success : Bool
  output : String
  error : Option String
  execution_time_ms : Nat
deriving Repr, DecidableEq

/-- Serialization of a string list, as serde serializes `Vec<String>`. -/
def encodeStringList (xs : List String) : Json :=
  .arr (xs.map .str)

/-- Serialization of a string map, as serde serializes `HashMap<String,String>`. -/
def encodeStringMap (m : List (String × String)) : Json :=
  .obj (m.map fun p => (p.1, .str p.2))

/-- serde serialization of `AgentTask` (derive(Serialize) on lib.rs line 12). -/
def AgentTask.serialize (t : AgentTask) : Json :=
  .obj [("id", .str t.id), ("agent_type", .str t.agent_type),
        ("command", .str t.command), ("args", encodeStringList t.args),
        ("environment", encodeStringMap t.environment)]

/-- serde serialization of `AgentResult` (derive(Serialize) on lib.rs line 21). -/
def AgentResult.serialize (r : AgentResult) : Json :=
  .obj [("task_id", .str r.task_id), ("success", .bool r.success),
        ("output", .str r.output),
        ("error", match r.error with | some e => .str e | none => .null),
        ("execution_time_ms", .num r.execution_time_ms)]

/-- Decoding a JSON string value. -/
def decodeString : Json → Except String String
  | .str s => .ok s
  | _ => .error "invalid type: expected a string"

/-- Decoding each element of a JSON array as a string (serde `Vec<String>`). -/
def decodeStringElems : List Json → Except String (List String)
  | [] => .ok []
  | j :: rest =>
    match decodeString j with
    | .error e => .error e
    | .ok s =>
      match decodeStringElems rest with
      | .error e => .error e
      | .ok tail => .ok (s :: tail)

/-- Decoding a JSON array as `Vec<String>`. -/
def decodeStringList : Json → Except String (List String)
  | .arr elems => decodeStringElems elems
  | _ => .error "invalid type: expected an array"

/-- Decoding each member of a JSON object as a string entry. -/
def decodeStringEntries : List (String × Json) → Except String (List (String × String))
  | [] => .ok []
  | (k, j) :: rest =>
    match decodeString j with
    | .error e => .error e
    | .ok v =>
      match decodeStringEntries rest with
      | .error e => .error e
      | .ok tail => .ok ((k, v) :: tail)

/-- Decoding a JSON object as `HashMap<String,String>`. -/
def decodeStringMap : Json → Except String (List (String × String))
  | .obj fields => decodeStringEntries fields
  | _ => .error "invalid type: expected an object"

/-- Field lookup during struct deserialization; a missing required field is a
serde error (serde's derive has no defaults for `AgentTask`). -/
def getField (fields : List (String × Json)) (k : String) : Except String Json :=
  match fields.find? (fun p => p.1 == k) with
  | some p => .ok p.2
  | none => .error ("missing field " ++ k)

/-- Looking up a field and decoding it as a string, a step of the derived
`AgentTask` deserializer. -/
def fieldString (fields : List (String × Json)) (k : String) :
    Except String String :=
  match getField fields k with
  | .error e => .error e
  | .ok j => decodeString j

/-- serde deserialization of `AgentTask` (derive(Deserialize) on lib.rs
line 12): all five fields are required. -/
def AgentTask.deserialize : Json → Except String AgentTask
  | .obj fields =>
    match fieldString fields "id" with
    | .error e => .error e
    | .ok id =>
      match fieldString fields "agent_type" with
      | .error e => .error e
      | .ok ty =>
        match fieldString fields "command" with
        | .error e => .error e
        | .ok cmd =>
          match getField fields "args" with
          | .error e => .error e
          | .ok argsJ =>
            match decodeStringList argsJ with
            | .error e => .error e
            | .ok args =>
              match getField fields "environment" with
              | .error e => .error e
              | .ok envJ =>
                match decodeStringMap envJ with
                | .error e => .error e
                | .ok env =>
                  .ok { id := id, agent_type := ty, command := cmd,
                        args := args, environment := env }
  | _ => .error "invalid type: expected struct AgentTask"

theorem decodeStringElems_encode (xs : List String) :
    decodeStringElems (xs.map .str) = .ok xs := by
  induction xs with
  | nil => rfl
  | cons x rest ih =>
    simp [decodeStringElems, decodeString, ih]

theorem decodeStringEntries_encode (m : List (String × String)) :
    decodeStringEntries (m.map fun p => (p.1, .str p.2)) = .ok m := by
  induction m with
  | nil => rfl
  | cons x rest ih =>
    simp [decodeStringEntries, decodeString, ih]

/-- serde round trip: deserializing a serialized task yields the task back. -/
theorem AgentTask.deserialize_serialize (t : AgentTask) :
    AgentTask.deserialize (AgentTask.serialize t) = .ok t := by
  simp [AgentTask.serialize, AgentTask.deserialize, fieldString, getField,
    List.find?, decodeString, decodeStringList, decodeStringMap,
    encodeStringList, encodeStringMap, decodeStringElems_encode,
    decodeStringEntries_encode]

/-- The `Agent` trait (lib.rs lines 37-40): a backend exposes a synchronous
`execute` and a capability predicate `supports` over the `agent_type` tag. -/
structure Agent where
  execute : AgentTask → AgentResult
  supports : String → Bool

/-- Outcome of `py.run` inside `PythonAgent::execute` (lib.rs line 70):
either the run succeeded and `resultVar` records the string value of the
`__result__` global if the script set it, or the interpreter raised. -/
inductive PyRunOutcome where
  | ok (resultVar : Option String) : PyRunOutcome
  | err (msg : String) : PyRunOutcome

/-- `PythonAgent::execute` (lib.rs lines 58-95), as a function of the
interpreter outcome and the elapsed wall-clock milliseconds of the call. -/
def pythonExecute (run : PyRunOutcome) (ms : Nat) (task : AgentTask) :
    AgentResult :=
  match run with
  | .ok resultVar =>
    { task_id := task.id, success := true,
      output := resultVar.getD "Python code executed successfully",
      error := none, execution_time_ms := ms }
  | .err m =>
    { task_id := task.id, success := false, output := "",
      error := some ("Python error: " ++ m), execution_time_ms := ms }

/-- `PythonAgent::supports` (lib.rs lines 97-99). -/
def pythonSupports (agent_type : String) : Bool :=
  agent_type == "python"

/-- `WasmAgent::execute` (lib.rs lines 116-128): the placeholder acknowledges
the task without running anything. -/
def wasmExecute (ms : Nat) (task : AgentTask) : AgentResult :=
  { task_id := task.id, success := true,
    output := "WASM agent executed: " ++ task.command,
    error := none, execution_time_ms := ms }

/-- `WasmAgent::supports` (lib.rs lines 130-132). -/
def wasmSupports (agent_type : String) : Bool :=
  agent_type == "wasm"

/-- What `std::process::Command::output()` observed for the spawned `sh -c`
process: the exit code (`none` when killed by a signal), and the captured
standard output and standard error as text. -/
structure ProcessOutput where
  exitCode : Option Nat
  stdout : String
  stderr : String

/-- `ExitStatus::success()`: the process exited with status code zero. -/
def statusSuccess (exitCode : Option Nat) : Bool :=
  exitCode == some 0

/-- Outcome of the spawn on lib.rs lines 142-145: either the process ran to
completion with an observed `ProcessOutput`, or spawning itself failed. -/
inductive SpawnResult where
  | ok (out : ProcessOutput) : SpawnResult
  | err (msg : String) : SpawnResult

/-- `SystemAgent::execute` (lib.rs lines 139-168), as a function of the spawn
outcome and the elapsed wall-clock milliseconds of the call. -/
def systemExecute (spawn : SpawnResult) (ms : Nat) (task : AgentTask) :
    AgentResult :=
  match spawn with
  | .ok out =>
    { task_id := task.id, success := statusSuccess out.exitCode,
      output := out.stdout,
      error := if out.stderr.isEmpty then none else some out.stderr,
      execution_time_ms := ms }
  | .err m =>
    { task_id := task.id, success := false, output := "",
      error := some ("System command error: " ++ m),
      execution_time_ms := ms }

/-- `SystemAgent::supports` (lib.rs lines 170-172). -/
def systemSupports (agent_type : String) : Bool :=
  agent_type == "system" || agent_type == "shell" || agent_type == "bash"

/-- World effects each backend call consults: per-task interpreter outcome,
spawn outcome and timings. They parameterize the registered agents. -/
structure World where
  pyRun : AgentTask → PyRunOutcome
  pyMs : AgentTask → Nat
  wasmMs : AgentTask → Nat
  spawn : AgentTask → SpawnResult
  sysMs : AgentTask → Nat
  pyInitOk : Bool

/-- The `PythonAgent` trait object under world `w`. -/
def pythonAgent (w : World) : Agent :=
  { execute := fun t => pythonExecute (w.pyRun t) (w.pyMs t) t,
    supports := pythonSupports }

/-- The `WasmAgent` trait object under world `w`. -/
def wasmAgent (w : World) : Agent :=
  { execute := fun t => wasmExecute (w.wasmMs t) t,
    supports := wasmSupports }

/-- The `SystemAgent` trait object under world `w`. -/
def systemAgent (w : World) : Agent :=
  { execute := fun t => systemExecute (w.spawn t) (w.sysMs t) t,
    supports := systemSupports }

/-- The loop of `execute_agent_task` (lib.rs lines 211-216): walk the
registry's entries in iteration order and run the first agent whose
`supports` accepts the task's `agent_type`; `none` if no agent matches. -/
def dispatchLoop (registry : List (String × Agent)) (task : AgentTask) :
    Option AgentResult :=
  match registry with
  | [] => none
  | (_, agent) :: rest =>
    if agent.supports task.agent_type then some (agent.execute task)
    else dispatchLoop rest task

/-- The record synthesized on lib.rs lines 218-224 when no agent matches. -/
def noAgentResult (task : AgentTask) : AgentResult :=
  { task_id := task.id, success := false, output := "",
    error := some ("No agent found for type: " ++ task.agent_type),
    execution_time_ms := 0 }

/-- The dispatch step of `execute_agent_task` after a task parsed
(lib.rs lines 209-226). -/
def dispatchResult (registry : List (String × Agent)) (task : AgentTask) :
    AgentResult :=
  match dispatchLoop registry task with
  | some r => r
  | none => noAgentResult task

/-- The record synthesized on lib.rs lines 198-204 when the task JSON does
not parse. -/
def parseFailResult (msg : String) : AgentResult :=
  { task_id := "unknown", success := false, output := "",
    error := some ("Failed to parse task JSON: " ++ msg),
    execution_time_ms := 0 }

/-- `serde_json::from_str::<AgentTask>`: tokenize the text with the (external)
JSON text parser `p`, then run the derived struct deserializer. -/
def from_str (p : String → Except String Json) (s : String) :
    Except String AgentTask :=
  match p s with
  | .error e => .error e
  | .ok j => AgentTask.deserialize j

/-- `execute_agent_task` (lib.rs lines 194-227), at the level of the result
record it serializes back to the caller. -/
def execute_agent_task (p : String → Except String Json)
    (registry : List (String × Agent)) (task_json : String) : AgentResult :=
  match from_str p task_json with
  | .error e => parseFailResult e
  | .ok task => dispatchResult registry task

/-- State of the `AGENT_REGISTRY` mutex when `lock()` is called. -/
inductive LockState where
  | healthy : LockState
  | poisoned : LockState

/-- `execute_agent_task` with the `AGENT_REGISTRY.lock().unwrap()` call of
lib.rs line 209 made explicit: on a poisoned lock `unwrap` panics, so no
result record is returned (`none`). The parse-failure branch returns before
the lock is touched. -/
def execute_agent_task_locked (lock : LockState)
    (p : String → Except String Json) (registry : List (String × Agent))
    (task_json : String) : Option AgentResult :=
  match from_str p task_json with
  | .error e => some (parseFailResult e)
  | .ok task =>
    match lock with
    | .poisoned => none
    | .healthy => some (dispatchResult registry task)

/-- The registry contents built by `init_agent_system` (lib.rs lines 176-191):
the python agent is inserted only when `PythonAgent::new()` succeeded
(`w.pyInitOk`); the wasm and system agents are always inserted. The list
records the inserted entries. -/
def init_agent_system_registry (w : World) : List (String × Agent) :=
  (if w.pyInitOk then [("python", pythonAgent w)] else [])
    ++ [("wasm", wasmAgent w), ("system", systemAgent w)]

/-- `init_agent_system` (lib.rs lines 176-191) returns `Ok(())` on every
path; its only failure mode is the modelled-elsewhere lock panic. -/
def init_agent_system_result (w : World) :
    Except String (List (String × Agent)) :=
  .ok (init_agent_system_registry w)

/-- `bifrost_init` (lib.rs lines 239-244). -/
def bifrost_init (w : World) : Bool :=
  match init_agent_system_result w with
  | .ok _ => true
  | .error _ => false

/-- The task synthesized by `bifrost_run_python` (lib.rs lines 259-265) from
the generated UUID string and the decoded code text. -/
def run_python_task (uuid code : String) : AgentTask :=
  { id := uuid, agent_type := "python", command := code, args := [],
    environment := [] }

/-- `bifrost_run_python` (lib.rs lines 255-269): build the task, serialize it
with the (external) JSON renderer `render`, and hand the text to
`execute_agent_task`. -/
def bifrost_run_python (p : String → Except String Json)
    (render : Json → String) (registry : List (String × Agent))
    (uuid code : String) : AgentResult :=
  execute_agent_task p registry
    (render (AgentTask.serialize (run_python_task uuid code)))

/-- `bifrost_execute_task` (lib.rs lines 247-252): `decoded` is the result of
`CStr::to_str()` (`none` when the bytes are not valid UTF-8), and
`unwrap_or` substitutes the literal text `\x7b\x7d` for invalid input. -/
def bifrost_execute_task (lock : LockState)
    (p : String → Except String Json) (registry : List (String × Agent))
    (decoded : Option String) : Option AgentResult :=
  execute_agent_task_locked lock p registry (decoded.getD "\x7b\x7d")

theorem dispatchLoop_append_of_no_support
    (pre rest : List (String × Agent)) (t : AgentTask)
    (h : ∀ x ∈ pre, x.2.supports t.agent_type = false) :
    dispatchLoop (pre ++ rest) t = dispatchLoop rest t := by
  induction pre with
  | nil => rfl
  | cons a l ih =>
    have ha : a.2.supports t.agent_type = false := h a (by simp)
    have hl : ∀ x ∈ l, x.2.supports t.agent_type = false := by
      intro x hx
      exact h x (by simp [hx])
    calc dispatchLoop ((a :: l) ++ rest) t
        = dispatchLoop (l ++ rest) t := by
          simp [dispatchLoop, ha]
      _ = dispatchLoop rest t := ih hl

theorem dispatchLoop_cons_support (e : String × Agent)
    (rest : List (String × Agent)) (t : AgentTask)
    (h : e.2.supports t.agent_type = true) :
    dispatchLoop (e :: rest) t = some (e.2.execute t) := by
  obtain ⟨k, a⟩ := e
  simp [dispatchLoop] at h ⊢
  simp [h]

theorem dispatchLoop_eq_none (l : List (String × Agent)) (t : AgentTask)
    (h : ∀ x ∈ l, x.2.supports t.agent_type = false) :
    dispatchLoop l t = none := by
  have := dispatchLoop_append_of_no_support l [] t h
  simpa using this

theorem dispatchLoop_unique_support (l : List (String × Agent))
    (t : AgentTask) (e : String × Agent) (hmem : e ∈ l)
    (he : e.2.supports t.agent_type = true)
    (huniq : ∀ y ∈ l, y.2.supports t.agent_type = true → y = e) :
    dispatchLoop l t = some (e.2.execute t) := by
  induction l with
  | nil => cases hmem
  | cons a rest ih =>
    by_cases ha : a.2.supports t.agent_type = true
    · have hae : a = e := huniq a (by simp) ha
      subst hae
      exact dispatchLoop_cons_support a rest t ha
    · have ha' : a.2.supports t.agent_type = false := by
        simpa using ha
      have hmem' : e ∈ rest := by
        rcases List.mem_cons.mp hmem with h | h
        · exact absurd (h ▸ he) (h ▸ ha)
        · exact h
      have huniq' : ∀ y ∈ rest, y.2.supports t.agent_type = true → y = e :=
        fun y hy hs => huniq y (by simp [hy]) hs
      obtain ⟨k, ag⟩ := a
      calc dispatchLoop ((k, ag) :: rest) t
          = dispatchLoop rest t := by
            simp only [dispatchLoop] at ha' ⊢
            simp [ha']
        _ = some (e.2.execute t) := ih hmem' huniq'

/-- Fixed probe result used by concrete witnesses below. -/
def probeResult (tag : String) (t : AgentTask) : AgentResult :=
  { task_id := t.id, success := true, output := tag, error := none,
    execution_time_ms := 0 }

/-- A concrete agent accepting exactly the tag `accept`, used as witness. -/
def probeAgent (tag : String) (accept : String) : Agent :=
  { execute := probeResult tag, supports := fun s => s == accept }

/-- A concrete task used by witnesses. -/
def wTask : AgentTask :=
  { id := "t1", agent_type := "beta", command := "c", args := [],
    environment := [] }

/-- C1: when the registry, read in its iteration order, splits as
`pre ++ e :: post` with nothing in `pre` supporting the task's kind and `e`
supporting it, the dispatch loop returns exactly `e`'s `execute` result;
the entries other than `e` never contribute (they may be replaced by any
other non-supporting prefix and any suffix whatsoever); and when `e` is the
only supporting entry, every iteration order of the same entries — in
particular registration order — selects `e`. -/
theorem dispatch_invokes_first_supporting_backend
    (registry : List (String × Agent)) (t : AgentTask)
    (pre : List (String × Agent)) (e : String × Agent)
    (post : List (String × Agent))
    (hsplit : registry = pre ++ e :: post)
    (hpre : ∀ x ∈ pre, x.2.supports t.agent_type = false)
    (he : e.2.supports t.agent_type = true) :
    dispatchLoop registry t = some (e.2.execute t)
    ∧ (∀ pre2 post2 : List (String × Agent),
        (∀ x ∈ pre2, x.2.supports t.agent_type = false) →
        dispatchLoop (pre2 ++ e :: post2) t = some (e.2.execute t))
    ∧ (∀ perm : List (String × Agent), perm.Perm registry →
        (∀ y ∈ registry, y.2.supports t.agent_type = true → y = e) →
        dispatchLoop perm t = some (e.2.execute t)) := by
  have hgen : ∀ pre2 post2 : List (String × Agent),
      (∀ x ∈ pre2, x.2.supports t.agent_type = false) →
      dispatchLoop (pre2 ++ e :: post2) t = some (e.2.execute t) := by
    intro pre2 post2 hpre2
    rw [dispatchLoop_append_of_no_support pre2 (e :: post2) t hpre2]
    exact dispatchLoop_cons_support e post2 t he
  refine ⟨hsplit ▸ hgen pre post hpre, hgen, ?_⟩
  intro perm hperm huniq
  refine dispatchLoop_unique_support perm t e ?_ he ?_
  · exact hperm.mem_iff.mpr (hsplit ▸ (by simp))
  · intro y hy hs
    exact huniq y (hperm.mem_iff.mp hy) hs

/-- Witness for C1 at a concrete registry of three probe agents: the second
entry is the first supporting one and its result is returned. -/
theorem dispatch_invokes_first_supporting_backend_witness :
    dispatchLoop [("a", probeAgent "A" "alpha"), ("b", probeAgent "B" "beta"),
      ("c", probeAgent "C" "beta")] wTask = some (probeResult "B" wTask) :=
  (dispatch_invokes_first_supporting_backend
    [("a", probeAgent "A" "alpha"), ("b", probeAgent "B" "beta"),
      ("c", probeAgent "C" "beta")] wTask
    [("a", probeAgent "A" "alpha")] ("b", probeAgent "B" "beta")
    [("c", probeAgent "C" "beta")] rfl (by decide) (by decide)).1

/-- C2: when no registered backend supports the task's kind, dispatch yields
the synthesized routing-failure record: `success = false`, error text
`No agent found for type: ` followed by the literal kind string, `task_id`
echoing the task's id, and `execution_time_ms = 0`. -/
theorem dispatch_no_backend_error_record
    (registry : List (String × Agent)) (t : AgentTask)
    (h : ∀ x ∈ registry, x.2.supports t.agent_type = false) :
    dispatchResult registry t
      = { task_id := t.id, success := false, output := "",
          error := some ("No agent found for type: " ++ t.agent_type),
          execution_time_ms := 0 } := by
  unfold dispatchResult
  rw [dispatchLoop_eq_none registry t h]
  rfl

/-- Witness for C2: a registry holding one probe agent for another tag. -/
theorem dispatch_no_backend_error_record_witness :
    dispatchResult [("a", probeAgent "A" "alpha")] wTask
      = { task_id := "t1", success := false, output := "",
          error := some ("No agent found for type: beta"),
          execution_time_ms := 0 } :=
  dispatch_no_backend_error_record [("a", probeAgent "A" "alpha")] wTask
    (by decide)

/-- C3: when the input text does not deserialize into an `AgentTask`,
`execute_agent_task` returns the parse-failure record — `task_id` is the
sentinel `unknown`, `success = false`, the error text is
`Failed to parse task JSON: ` followed by the parser's message — and the
registry is never consulted (any registry gives the same record). -/
theorem execute_task_parse_failure_record
    (p : String → Except String Json) (registry : List (String × Agent))
    (s e : String) (h : from_str p s = .error e) :
    execute_agent_task p registry s
      = { task_id := "unknown", success := false, output := "",
          error := some ("Failed to parse task JSON: " ++ e),
          execution_time_ms := 0 }
    ∧ ∀ registry2 : List (String × Agent),
        execute_agent_task p registry2 s = execute_agent_task p registry s := by
  constructor
  · unfold execute_agent_task
    rw [h]
    rfl
  · intro registry2
    unfold execute_agent_task
    rw [h]

/-- Witness for C3 at a concrete failing parse. -/
theorem execute_task_parse_failure_record_witness :
    execute_agent_task (fun _ => .error "boom") [] "not json"
      = { task_id := "unknown", success := false, output := "",
          error := some ("Failed to parse task JSON: boom"),
          execution_time_ms := 0 } :=
  (execute_task_parse_failure_record (fun _ => .error "boom") [] "not json"
    "boom" rfl).1

/-- A world whose spawned process exits with status 3 writing nothing to
standard output or standard error. -/
def exitThreeWorld : World :=
  { pyRun := fun _ => .err "unused", pyMs := fun _ => 0,
    wasmMs := fun _ => 0,
    spawn := fun _ => .ok { exitCode := some 3, stdout := "", stderr := "" },
    sysMs := fun _ => 5, pyInitOk := true }

/-- The task `exit 3` routed to the shell backend. -/
def exitThreeTask : AgentTask :=
  { id := "t9", agent_type := "shell", command := "exit 3", args := [],
    environment := [] }

/-- C4 counterexample: a dispatched shell task whose process exits with a
nonzero status and an empty captured standard error produces a record with
`success = false` and `error = none`, so a failed record need not carry a
populated error. -/
theorem shell_failure_with_empty_stderr_lacks_error :
    (dispatchResult [("system", systemAgent exitThreeWorld)]
        exitThreeTask).success = false
    ∧ (dispatchResult [("system", systemAgent exitThreeWorld)]
        exitThreeTask).error = none := by
  exact ⟨rfl, rfl⟩

/-- C4 (amended): for the script backend, the sandbox backend, a shell spawn
failure, and both dispatch-layer synthesized records, `success = false`
implies a populated `error` (and `error = none` iff `success = true` for the
script backend); the one exception is a shell-backend record for a process
that ran with empty captured standard error, where `error = none` regardless
of the exit status. -/
theorem result_error_population_discipline :
    (∀ run ms t, ((pythonExecute run ms t).error = none
        ↔ (pythonExecute run ms t).success = true))
    ∧ (∀ ms t, (wasmExecute ms t).error = none
        ∧ (wasmExecute ms t).success = true)
    ∧ (∀ m ms t, (systemExecute (.err m) ms t).success = false
        ∧ (systemExecute (.err m) ms t).error
            = some ("System command error: " ++ m))
    ∧ (∀ out ms t, ((systemExecute (.ok out) ms t).error = none
        ↔ out.stderr.isEmpty = true))
    ∧ (∀ e, (parseFailResult e).success = false
        ∧ (parseFailResult e).error
            = some ("Failed to parse task JSON: " ++ e))
    ∧ (∀ t, (noAgentResult t).success = false
        ∧ (noAgentResult t).error
            = some ("No agent found for type: " ++ t.agent_type)) := by
  refine ⟨?_, ?_, ?_, ?_, ?_, ?_⟩
  · intro run ms t
    cases run <;> simp [pythonExecute]
  · intro ms t
    exact ⟨rfl, rfl⟩
  · intro m ms t
    exact ⟨rfl, rfl⟩
  · intro out ms t
    cases h : out.stderr.isEmpty <;> simp [systemExecute, h]
  · intro e
    exact ⟨rfl, rfl⟩
  · intro t
    exact ⟨rfl, rfl⟩

/-- C5: for a shell-backend task whose process spawned, `success` is true
iff the exit status is zero, `output` is the captured standard output, and
`error` carries the captured standard error exactly when it is non-empty;
when spawning fails, `success = false` with error text
`System command error: ` followed by the message. The backend accepts
exactly the tags `system`, `shell` and `bash`. -/
theorem shell_backend_result_semantics :
    (∀ out ms t,
      ((systemExecute (.ok out) ms t).success = true ↔ out.exitCode = some 0)
      ∧ (systemExecute (.ok out) ms t).output = out.stdout
      ∧ (systemExecute (.ok out) ms t).task_id = t.id
      ∧ (out.stderr.isEmpty = true →
          (systemExecute (.ok out) ms t).error = none)
      ∧ (out.stderr.isEmpty = false →
          (systemExecute (.ok out) ms t).error = some out.stderr))
    ∧ (∀ m ms t, (systemExecute (.err m) ms t).success = false
        ∧ (systemExecute (.err m) ms t).error
            = some ("System command error: " ++ m))
    ∧ (∀ s, systemSupports s
        = (s == "system" || s == "shell" || s == "bash")) := by
  refine ⟨?_, ?_, ?_⟩
  · intro out ms t
    refine ⟨?_, rfl, rfl, ?_, ?_⟩
    · simp [systemExecute, statusSuccess]
    · intro h
      simp [systemExecute, h]
    · intro h
      simp [systemExecute, h]
  · intro m ms t
    exact ⟨rfl, rfl⟩
  · intro s
    rfl

/-- A process observation: exit 0, `hi` on standard output, empty stderr. -/
def hiOut : ProcessOutput :=
  { exitCode := some 0, stdout := "hi\n", stderr := "" }

/-- Witness for C5: a process that exited 0 printing `hi` with empty
standard error yields a successful record with no error. -/
theorem shell_backend_result_semantics_witness :
    (systemExecute (.ok hiOut) 1 wTask).success = true
    ∧ (systemExecute (.ok hiOut) 1 wTask).error = none :=
  ⟨((shell_backend_result_semantics.1 hiOut 1 wTask).1).mpr rfl,
   ((shell_backend_result_semantics.1 hiOut 1 wTask).2.2.2.1) rfl⟩

/-- C6 counterexample: the descriptor synthesized by `bifrost_run_python`
carries the kind tag `python`, not `script`. -/
theorem run_script_kind_is_python_not_script :
    (run_python_task "u1" "print(1)").agent_type = "python"
    ∧ (run_python_task "u1" "print(1)").agent_type ≠ "script" := by
  exact ⟨rfl, by decide⟩

/-- C6 (amended): each `bifrost_run_python` call synthesizes a descriptor
whose id is the UUID generated for that call — so ids of two calls differ
whenever their generated UUIDs differ, which the code does not itself
enforce — whose kind is `python` (the script backend's tag), whose command
is the given code, with empty args and environment; and whenever the
external JSON tokenizer inverts the renderer on that descriptor, the call
behaves exactly as `execute_agent_task` on the descriptor's serialization,
dispatching the synthesized descriptor. -/
theorem run_python_synthesizes_task_and_dispatches
    (p : String → Except String Json) (render : Json → String)
    (registry : List (String × Agent)) (uuid code : String)
    (hp : p (render (AgentTask.serialize (run_python_task uuid code)))
        = .ok (AgentTask.serialize (run_python_task uuid code))) :
    bifrost_run_python p render registry uuid code
      = execute_agent_task p registry
          (render (AgentTask.serialize (run_python_task uuid code)))
    ∧ bifrost_run_python p render registry uuid code
      = dispatchResult registry (run_python_task uuid code)
    ∧ (run_python_task uuid code).id = uuid
    ∧ (run_python_task uuid code).agent_type = "python"
    ∧ (run_python_task uuid code).command = code
    ∧ (run_python_task uuid code).args = []
    ∧ (run_python_task uuid code).environment = []
    ∧ (∀ uuid2 code2 : String, uuid ≠ uuid2 →
        (run_python_task uuid code).id
          ≠ (run_python_task uuid2 code2).id) := by
  refine ⟨rfl, ?_, rfl, rfl, rfl, rfl, rfl, ?_⟩
  · unfold bifrost_run_python execute_agent_task from_str
    rw [hp]
    simp [AgentTask.deserialize_serialize]
  · intro uuid2 code2 hne
    exact hne

/-- Renderer for the C6 witness: emits a fixed token. -/
def wRender : Json → String := fun _ => "RPT"

/-- Tokenizer for the C6 witness: maps the fixed token back to the
serialized synthesized task. -/
def wParse : String → Except String Json := fun s =>
  if s = "RPT" then .ok (AgentTask.serialize (run_python_task "u1" "x = 1"))
  else .error "bad"

/-- Witness for C6 (amended) on an empty registry. -/
theorem run_python_synthesizes_task_and_dispatches_witness :
    bifrost_run_python wParse wRender [] "u1" "x = 1"
      = dispatchResult [] (run_python_task "u1" "x = 1") :=
  (run_python_synthesizes_task_and_dispatches wParse wRender [] "u1" "x = 1"
    (by rfl)).2.1

/-- C7 counterexample: the sandboxed (wasm) backend does not accept the tag
`sandbox`; its capability predicate accepts `wasm`. -/
theorem sandbox_tag_not_supported :
    wasmSupports "sandbox" = false ∧ wasmSupports "wasm" = true := by
  exact ⟨rfl, rfl⟩

/-- C7 (amended): the sandboxed backend's supports predicate is true exactly
for the tag `wasm`, and for every accepted task its execute reports
success with output `WASM agent executed: ` followed by the command text
(echoing the command) and no error — the placeholder never fails. -/
theorem wasm_backend_placeholder_semantics :
    (∀ s, (wasmSupports s = true ↔ s = "wasm"))
    ∧ (∀ ms t, (wasmExecute ms t).success = true
        ∧ (wasmExecute ms t).error = none
        ∧ (wasmExecute ms t).output = "WASM agent executed: " ++ t.command
        ∧ (wasmExecute ms t).task_id = t.id) := by
  refine ⟨?_, ?_⟩
  · intro s
    simp [wasmSupports]
  · intro ms t
    exact ⟨rfl, rfl, rfl, rfl⟩

/-- C8: contrary to the claim, a poisoned registry lock is not converted
into a returned error record: `AGENT_REGISTRY.lock().unwrap()` panics, so
on any input that parses as a task, the poisoned-lock run of
`execute_agent_task` returns no record at all, while the same input under a
healthy lock dispatches normally. -/
theorem poisoned_lock_returns_no_record
    (p : String → Except String Json) (registry : List (String × Agent))
    (s : String) (t : AgentTask) (h : from_str p s = .ok t) :
    execute_agent_task_locked .poisoned p registry s = none
    ∧ execute_agent_task_locked .healthy p registry s
        = some (dispatchResult registry t) := by
  constructor <;> (unfold execute_agent_task_locked; rw [h])

/-- Tokenizer for the C8 witness: reads any text as the serialized `wTask`. -/
def wOkParse : String → Except String Json :=
  fun _ => .ok (AgentTask.serialize wTask)

/-- Witness for C8: a concrete parsing input under a poisoned lock yields no
record. -/
theorem poisoned_lock_returns_no_record_witness :
    execute_agent_task_locked .poisoned wOkParse [] "x" = none :=
  (poisoned_lock_returns_no_record wOkParse [] "x" wTask
    (AgentTask.deserialize_serialize wTask)).1

/-- C9: `bifrost_init` returns true in every world — no registration step
fails irrecoverably — the wasm (sandbox) and system (shell) backends are
always registered, the python (script) backend is registered exactly when
`PythonAgent::new()` succeeded, and when the python runtime fails to
initialize it is simply omitted: the registry then holds exactly the wasm
and system entries and init still succeeds. -/
theorem init_registers_available_backends (w : World) :
    bifrost_init w = true
    ∧ ("wasm", wasmAgent w) ∈ init_agent_system_registry w
    ∧ ("system", systemAgent w) ∈ init_agent_system_registry w
    ∧ (w.pyInitOk = true →
        ("python", pythonAgent w) ∈ init_agent_system_registry w)
    ∧ (w.pyInitOk = false →
        init_agent_system_registry w
          = [("wasm", wasmAgent w), ("system", systemAgent w)]) := by
  refine ⟨rfl, ?_, ?_, ?_, ?_⟩
  · cases hpy : w.pyInitOk <;> simp [init_agent_system_registry, hpy]
  · cases hpy : w.pyInitOk <;> simp [init_agent_system_registry, hpy]
  · intro hpy
    simp [init_agent_system_registry, hpy]
  · intro hpy
    simp [init_agent_system_registry, hpy]

/-- A world in which `PythonAgent::new()` failed. -/
def noPyWorld : World :=
  { pyRun := fun _ => .ok none, pyMs := fun _ => 0, wasmMs := fun _ => 0,
    spawn := fun _ => .err "no", sysMs := fun _ => 0, pyInitOk := false }

/-- Witness for C9: with the python runtime unavailable, init still
succeeds and the registry holds exactly the wasm and system backends. -/
theorem init_registers_available_backends_witness :
    bifrost_init noPyWorld = true
    ∧ init_agent_system_registry noPyWorld
        = [("wasm", wasmAgent noPyWorld), ("system", systemAgent noPyWorld)] :=
  ⟨(init_registers_available_backends noPyWorld).1,
   (init_registers_available_backends noPyWorld).2.2.2.2 rfl⟩

/-- C10: when the C-string bytes are not valid UTF-8 (`decoded = none`),
`bifrost_execute_task` substitutes the literal text `\x7b\x7d`; provided
the external JSON tokenizer reads that text as the empty object, the
derived deserializer rejects it (missing required field `id`), so the call
returns the parse-failure record — `task_id = unknown`, `success = false` —
under any registry and either lock state (no backend is consulted), rather
than faulting or dispatching. -/
theorem invalid_utf8_input_yields_parse_failure
    (lock : LockState) (p : String → Except String Json)
    (registry : List (String × Agent))
    (hp : p "\x7b\x7d" = .ok (Json.obj [])) :
    bifrost_execute_task lock p registry none
      = some { task_id := "unknown", success := false, output := "",
               error := some ("Failed to parse task JSON: missing field id"),
               execution_time_ms := 0 }
    ∧ ∀ (lock2 : LockState) (registry2 : List (String × Agent)),
        bifrost_execute_task lock2 p registry2 none
          = bifrost_execute_task lock p registry none := by
  have hfs : from_str p "\x7b\x7d" = .error "missing field id" := by
    unfold from_str
    rw [hp]
    rfl
  have hb : ∀ (lk : LockState) (rg : List (String × Agent)),
      bifrost_execute_task lk p rg none
        = some (parseFailResult "missing field id") := by
    intro lk rg
    unfold bifrost_execute_task execute_agent_task_locked
    rw [show (none : Option String).getD "\x7b\x7d" = "\x7b\x7d" from rfl,
      hfs]
  exact ⟨hb lock registry,
    fun lock2 registry2 => (hb lock2 registry2).trans (hb lock registry).symm⟩

/-- Tokenizer for the C10 witness: reads the substituted literal as the
empty JSON object. -/
def wEmptyObjParse : String → Except String Json := fun s =>
  if s = "\x7b\x7d" then .ok (Json.obj []) else .error "bad"

/-- Witness for C10 at a concrete tokenizer, healthy lock, empty registry. -/
theorem invalid_utf8_input_yields_parse_failure_witness :
    bifrost_execute_task .healthy wEmptyObjParse [] none
      = some { task_id := "unknown", success := false, output := "",
               error := some ("Failed to parse task JSON: missing field id"),
               execution_time_ms := 0 } :=
  (invalid_utf8_input_yields_parse_failure .healthy wEmptyObjParse []
    (by rfl)).1

/-- Witness for C4 (amended): a concrete spawn failure carries a populated
error. -/
theorem result_error_population_discipline_witness :
    (systemExecute (.err "denied") 2 wTask).success = false
    ∧ (systemExecute (.err "denied") 2 wTask).error
        = some ("System command error: denied") :=
  result_error_population_discipline.2.2.1 "denied" 2 wTask

/-- Witness for C7 (amended): a concrete placeholder run succeeds with no
error. -/
theorem wasm_backend_placeholder_semantics_witness :
    (wasmExecute 0 wTask).success = true
    ∧ (wasmExecute 0 wTask).error = none :=
  ⟨(wasm_backend_placeholder_semantics.2 0 wTask).1,
   (wasm_backend_placeholder_semantics.2 0 wTask).2.1⟩

/-- The three backends registered by `init_agent_system` claim pairwise
disjoint tag sets, so the first supporting entry of the init registry is
its unique supporting entry under any iteration order of the `HashMap`. -/
theorem init_registry_supporting_entry_unique (w : World) (s : String)
    (x y : String × Agent) (hx : x ∈ init_agent_system_registry w)
    (hy : y ∈ init_agent_system_registry w)
    (hxs : x.2.supports s = true) (hys : y.2.supports s = true) : x = y := by
  have hmem : ∀ z : String × Agent, z ∈ init_agent_system_registry w →
      z = ("python", pythonAgent w) ∨ z = ("wasm", wasmAgent w)
        ∨ z = ("system", systemAgent w) := by
    intro z hz
    cases hpy : w.pyInitOk <;>
      simp [init_agent_system_registry, hpy] at hz <;> tauto
  have hpys : ∀ s2 : String, pythonSupports s2 = true → s2 = "python" := by
    intro s2 h
    simpa [pythonSupports] using h
  have hws : ∀ s2 : String, wasmSupports s2 = true → s2 = "wasm" := by
    intro s2 h
    simpa [wasmSupports] using h
  have hss : ∀ s2 : String, systemSupports s2 = true →
      s2 = "system" ∨ (s2 = "shell" ∨ s2 = "bash") := by
    intro s2 h
    have h2 := h
    simp [systemSupports] at h2
    tauto
  rcases hmem x hx with hx1 | hx1 | hx1 <;>
    rcases hmem y hy with hy1 | hy1 | hy1 <;> subst hx1 <;> subst hy1
  · rfl
  · exfalso
    have e1 : s = "python" := hpys s hxs
    subst e1
    have h2 : wasmSupports "python" = true := hys
    exact absurd h2 (by decide)
  · exfalso
    have e1 : s = "python" := hpys s hxs
    subst e1
    have h2 : systemSupports "python" = true := hys
    exact absurd h2 (by decide)
  · exfalso
    have e1 : s = "wasm" := hws s hxs
    subst e1
    have h2 : pythonSupports "wasm" = true := hys
    exact absurd h2 (by decide)
  · rfl
  · exfalso
    have e1 : s = "wasm" := hws s hxs
    subst e1
    have h2 : systemSupports "wasm" = true := hys
    exact absurd h2 (by decide)
  · exfalso
    have h1 : systemSupports s = true := hxs
    rcases hss s h1 with e1 | e1 | e1 <;> subst e1 <;>
      [ (have h2 : pythonSupports "system" = true := hys
         exact absurd h2 (by decide)) ;
        (have h2 : pythonSupports "shell" = true := hys
         exact absurd h2 (by decide)) ;
        (have h2 : pythonSupports "bash" = true := hys
         exact absurd h2 (by decide)) ]
  · exfalso
    have h1 : systemSupports s = true := hxs
    rcases hss s h1 with e1 | e1 | e1 <;> subst e1 <;>
      [ (have h2 : wasmSupports "system" = true := hys
         exact absurd h2 (by decide)) ;
        (have h2 : wasmSupports "shell" = true := hys
         exact absurd h2 (by decide)) ;
        (have h2 : wasmSupports "bash" = true := hys
         exact absurd h2 (by decide)) ]
  · rfl

end Bifrost
